import Mathlib

/-!
Verification development for the pyinsteon device-type subsystem
(files device_types/climate_control.py and
device_types/switched_lighting_control.py), shallowly embedded in Lean.

Python methods become Lean functions over explicit state records; the
transport response for a command is passed in as an oracle argument of
type ResponseStatus.  Helper code from modules of this repository that
sit outside the two files above (utils, config property classes,
constants, battery base class, responder base class) is modelled from
the specification and marked as such in the doc comments.
-/

set_option maxRecDepth 4096

/-- Modelled from the spec: pyinsteon.constants.ResponseStatus, the result
status enum returned by the transport for a command exchange
(SUCCESS, FAILURE, TIMEOUT, DIRECT_NAK_PRE_NAK). -/
inductive ResponseStatus where
  | failure
  | success
  | timeout
  | direct_nak_pre_nak
deriving DecidableEq, Repr

/-- Modelled from the spec: pyinsteon.utils.bit_is_set, which tests one bit
of a byte value. -/
def bit_is_set (value : Nat) (bit : Nat) : Bool :=
  Nat.testBit value bit

/-- Modelled from the spec: pyinsteon.utils.set_bit, which sets or clears
one bit of a byte value. -/
def set_bit (value : Nat) (bit : Nat) (is_on : Bool) : Nat :=
  if is_on then value ||| (1 <<< bit) else value &&& (255 ^^^ (1 <<< bit))

/-- Modelled from the spec: pyinsteon.utils.to_fahrenheit, the Fahrenheit
conversion applied to a temperature given in Celsius units. -/
def to_fahrenheit (celsius : Int) : Int :=
  celsius * 9 / 5 + 32

theorem testBit_set_bit (value : Nat) (bit : Nat) (is_on : Bool) (i : Nat)
    (hbit : bit < 8) (hhi : 8 ≤ i → Nat.testBit value i = false) :
    Nat.testBit (set_bit value bit is_on) i =
      if i = bit then is_on else Nat.testBit value i := by
  have h255t : ∀ j, Nat.testBit 255 j = decide (j < 8) := by
    intro j
    have h := Nat.testBit_two_pow_sub_one 8 j
    norm_num at h
    exact h
  unfold set_bit
  cases is_on with
  | true =>
    simp only [if_pos rfl, Nat.testBit_or, Nat.one_shiftLeft, Nat.testBit_two_pow]
    by_cases h : i = bit
    · subst h
      simp
    · have hne : ¬(bit = i) := fun hc => h hc.symm
      simp [h, hne]
  | false =>
    simp only [Bool.false_eq_true, if_neg, Nat.testBit_and, Nat.testBit_xor,
      Nat.one_shiftLeft, Nat.testBit_two_pow, h255t]
    by_cases h : i = bit
    · subst h
      simp [hbit, h255t]
    · have hne : ¬(bit = i) := fun hc => h hc.symm
      by_cases hlt : i < 8
      · simp [h, hne, hlt, h255t]
      · have hv : Nat.testBit value i = false := hhi (by omega)
        simp [h, hne, hlt, hv, h255t]

/-- The loop of SwitchedLightingControl_KeypadLinc.set_radio_buttons that
assembles a mask byte bit by bit, starting from 0 and applying set_bit for
bits 0 up to n-1 in order (the source iterates for bit in range(0, 8)). -/
def build_mask (f : Nat → Bool) : Nat → Nat
  | 0 => 0
  | n + 1 => set_bit (build_mask f n) n (f n)

theorem testBit_build_mask (f : Nat → Bool) :
    ∀ n, n ≤ 8 → ∀ i, Nat.testBit (build_mask f n) i = (decide (i < n) && f i) := by
  intro n
  induction n with
  | zero => intro _ i; simp [build_mask]
  | succ n ih =>
    intro hn i
    have hn' : n ≤ 8 := by omega
    have hstep := testBit_set_bit (build_mask f n) n (f n) i (by omega)
      (fun h8 => by rw [ih hn' i]; simp; omega)
    rw [build_mask, hstep]
    by_cases h : i = n
    · subst h
      simp
    · rw [if_neg h, ih hn' i]
      by_cases hlt : i < n
      · have : i < n + 1 := by omega
        simp [hlt, this]
      · have : ¬(i < n + 1) := by omega
        simp [hlt, this]

/-!
Model of ClimateControl_Thermostat (device_types/climate_control.py).

The group values the claims are about are kept as record fields; every
list field suffixed with sent is the log of values carried by frames the
device handed to the transport.  The transport result of a command is an
oracle argument res; the subscription of the set-point command handlers
(_cool_set_point_set and _heat_set_point_set run when the device
acknowledges the sent value) is inlined into the operation.
-/

structure Thermostat where
  cool_set_point : Int
  heat_set_point : Int
  humidity_high : Nat
  humidity_low : Nat
  temperature : Int
  humidity : Nat
  celsius : Option Bool
  sent_cool : List Int
  sent_heat : List Int
  sent_humidity_high : List Nat
  sent_humidity_low : List Nat
deriving Repr, DecidableEq

/-- ClimateControl_Thermostat.async_set_cool_set_point: clamps the input to
1..127, sends the clamped value, and on a SUCCESS acknowledgement the
cool_set_point group value is set to the acknowledged (clamped) value
through the handler subscription _cool_set_point_set. -/
def async_set_cool_set_point (st : Thermostat) (temperature : Int)
    (res : ResponseStatus) : Thermostat × ResponseStatus :=
  let t := max 1 (min temperature 127)
  let st1 := { st with sent_cool := st.sent_cool ++ [t] }
  if res = ResponseStatus.success then
    ({ st1 with cool_set_point := t }, res)
  else
    (st1, res)

/-- ClimateControl_Thermostat.async_set_heat_set_point, same shape as the
cool set point operation. -/
def async_set_heat_set_point (st : Thermostat) (temperature : Int)
    (res : ResponseStatus) : Thermostat × ResponseStatus :=
  let t := max 1 (min temperature 127)
  let st1 := { st with sent_heat := st.sent_heat ++ [t] }
  if res = ResponseStatus.success then
    ({ st1 with heat_set_point := t }, res)
  else
    (st1, res)

/-- ClimateControl_Thermostat.async_set_humidity_high_set_point: clamps to
at most 99, sends, and updates the group value only when the transport
reports SUCCESS. -/
def async_set_humidity_high_set_point (st : Thermostat) (humidity : Nat)
    (res : ResponseStatus) : Thermostat × ResponseStatus :=
  let h := min humidity 99
  let st1 := { st with sent_humidity_high := st.sent_humidity_high ++ [h] }
  if res = ResponseStatus.success then
    ({ st1 with humidity_high := h }, res)
  else
    (st1, res)

/-- ClimateControl_Thermostat.async_set_humidity_low_set_point: clamps to
at least 1, sends, and updates the group value only when the transport
reports SUCCESS. -/
def async_set_humidity_low_set_point (st : Thermostat) (humidity : Nat)
    (res : ResponseStatus) : Thermostat × ResponseStatus :=
  let h := max humidity 1
  let st1 := { st with sent_humidity_low := st.sent_humidity_low ++ [h] }
  if res = ResponseStatus.success then
    ({ st1 with humidity_low := h }, res)
  else
    (st1, res)

/-- ClimateControl_Thermostat._status_received, restricted to the group
values modelled here: the raw temperature is converted with to_fahrenheit
unless the CELSIUS configuration value is truthy (an unloaded None value
is falsy in the source, so it converts). -/
def status_received (st : Thermostat) (system_mode fan_mode : Nat)
    (cool_set_point : Int) (humidity : Nat) (temperature : Int)
    (cooling heating : Bool) (heat_set_point : Int) : Thermostat :=
  let _ := (system_mode, fan_mode, cooling, heating)
  let t := if st.celsius.getD false then temperature else to_fahrenheit temperature
  { st with
    cool_set_point := cool_set_point
    heat_set_point := heat_set_point
    temperature := t
    humidity := humidity }

/-- ClimateControl_Thermostat._temp_received, the standalone temperature
handler: it stores the delivered degrees into the TEMPERATURE group value
directly, with no conversion. -/
def temp_received (st : Thermostat) (degrees : Int) : Thermostat :=
  { st with temperature := degrees }

/-- A thermostat state used for concrete evaluations. -/
def thermostat0 : Thermostat :=
  { cool_set_point := 65
    heat_set_point := 95
    humidity_high := 0
    humidity_low := 0
    temperature := 0
    humidity := 0
    celsius := some false
    sent_cool := []
    sent_heat := []
    sent_humidity_high := []
    sent_humidity_low := [] }

/-!
Model of SwitchedLightingControl_KeypadLinc
(device_types/switched_lighting_control.py).
-/

/-- Modelled from the spec: a configuration property (pyinsteon.config
extended property), tracking the committed value (None until loaded) and
the staged pending value (None until a local write request is made). -/
structure ExtProp where
  value : Option Nat
  new_value : Option Nat
deriving Repr, DecidableEq

/-- Modelled from the spec: is_loaded is false until a value has been read
or committed. -/
def ExtProp.is_loaded (p : ExtProp) : Bool :=
  p.value.isSome

/-- Modelled from the spec: set_value adopts a value read from the device,
making the property loaded. -/
def ExtProp.set_value (p : ExtProp) (v : Nat) : ExtProp :=
  { p with value := some v }

/-- Reading the value of a property the source only reads after ensuring
it is loaded; an unloaded value reads as 0. -/
def ExtProp.read (p : ExtProp) : Nat :=
  p.value.getD 0

/-- Python errors raised by the synchronous validation paths. -/
inductive PyErr where
  | indexErr
  | valueErr
deriving Repr, DecidableEq

/-- ON and OFF events used by the KeypadLinc event triggers. -/
inductive EvName where
  | onEvent
  | offEvent
deriving Repr, DecidableEq

/-- State of one SwitchedLightingControl_KeypadLinc device.  Group values
are a partial map (none for a group the device does not define); the
on-mask and off-mask properties are per button; sent_led_frames logs the
group1..group8 payload of each SET_LEDS frame handed to the transport,
as a function from LED position to the boolean sent. -/
structure KeypadLinc where
  buttons : List Nat
  groupVal : Nat → Option Nat
  onMask : Nat → ExtProp
  offMask : Nat → ExtProp
  nonToggleMask : ExtProp
  nonToggleOnOffMask : ExtProp
  statusRequested : Bool
  sent_led_frames : List (Nat → Bool)
  events : List (Nat × EvName × Nat)

/-- SwitchedLightingControl_KeypadLinc._change_led_status: the payload of
one SET_LEDS frame; position led carries is_on, every other position
carries the boolean of the current group value (False when the device
does not define that group). -/
def change_led_status (st : KeypadLinc) (led : Nat) (is_on : Bool) : Nat → Bool :=
  fun curr_led =>
    let curr_val := match st.groupVal curr_led with
      | some v => decide (v ≠ 0)
      | none => false
    if curr_led = led then is_on else curr_val

/-- SwitchedLightingControl_KeypadLinc._update_leds: when the group is
defined, the group value is forced to 0 when the non-toggle mask is loaded
and has bit group set, otherwise it is set to the given value; the event
is triggered with the given value either way. -/
def update_leds (st : KeypadLinc) (group : Nat) (value : Nat) (event : EvName) :
    KeypadLinc :=
  if (st.groupVal group).isNone then st
  else
    let non_toggle := match st.nonToggleMask.value with
      | some v => bit_is_set v group
      | none => false
    let newVal := if non_toggle then 0 else value
    { st with
      groupVal := fun g => if g = group then some newVal else st.groupVal g
      events := st.events ++ [(group, event, value)] }

/-- Modelled from the spec: OnOffResponderBase.async_on as used for groups
0 and 1 of the KeypadLinc; the group value is updated only after the
transport confirms success. -/
def super_async_on (st : KeypadLinc) (group : Nat) (res : ResponseStatus) :
    KeypadLinc :=
  if res = ResponseStatus.success ∧ (st.groupVal group).isSome then
    { st with groupVal := fun g => if g = group then some 0xFF else st.groupVal g }
  else st

/-- Modelled from the spec: OnOffResponderBase.async_off, as super_async_on
but turning the group off. -/
def super_async_off (st : KeypadLinc) (group : Nat) (res : ResponseStatus) :
    KeypadLinc :=
  if res = ResponseStatus.success ∧ (st.groupVal group).isSome then
    { st with groupVal := fun g => if g = group then some 0 else st.groupVal g }
  else st

/-- SwitchedLightingControl_KeypadLinc.async_on: for groups 0 and 1 the
base class operation runs; for any other group the SET_LEDS frame built by
change_led_status from the current state is sent while the on-off lock is
held.  On SUCCESS the LEDs are updated through _update_leds with value
0xFF and the ON event; on DIRECT_NAK_PRE_NAK a status refresh is issued;
the transport result is returned unchanged. -/
def async_on (st : KeypadLinc) (group : Nat) (res : ResponseStatus) :
    KeypadLinc × ResponseStatus :=
  let st1 :=
    if group = 0 ∨ group = 1 then super_async_on st group res
    else { st with
      sent_led_frames := st.sent_led_frames ++ [change_led_status st group true] }
  let st2 :=
    if res = ResponseStatus.success then update_leds st1 group 0xFF EvName.onEvent
    else if res = ResponseStatus.direct_nak_pre_nak then
      { st1 with statusRequested := true }
    else st1
  (st2, res)

/-- SwitchedLightingControl_KeypadLinc.async_off, symmetric to async_on
with value 0 and the OFF event. -/
def async_off (st : KeypadLinc) (group : Nat) (res : ResponseStatus) :
    KeypadLinc × ResponseStatus :=
  let st1 :=
    if group = 0 ∨ group = 1 then super_async_off st group res
    else { st with
      sent_led_frames := st.sent_led_frames ++ [change_led_status st group false] }
  let st2 :=
    if res = ResponseStatus.success then update_leds st1 group 0 EvName.offEvent
    else if res = ResponseStatus.direct_nak_pre_nak then
      { st1 with statusRequested := true }
    else st1
  (st2, res)

/-- The bit chosen by the set_radio_buttons loop for one bit position:
positions whose button (bit + 1) is in the radio button group get the
complement test bit against button - 1, other positions copy the prior
mask value. -/
def radio_mask_bit (buttons : List Nat) (button : Nat) (prior : Nat)
    (bit : Nat) : Bool :=
  if (bit + 1) ∈ buttons then decide (bit ≠ button - 1)
  else bit_is_set prior bit

/-- The staged mask value set_radio_buttons computes for one button. -/
def radio_mask (buttons : List Nat) (button : Nat) (prior : Nat) : Nat :=
  build_mask (radio_mask_bit buttons button prior) 8

/-- The reset performed by set_radio_buttons when either mask of the pair
has never been loaded: both masks get set_value 0 before their values are
read. -/
def reset_if_unloaded (onp offp : ExtProp) : ExtProp × ExtProp :=
  if !onp.is_loaded || !offp.is_loaded then
    (onp.set_value 0, offp.set_value 0)
  else (onp, offp)

/-- The body of the set_radio_buttons loop for one valid button: reset the
pair when either mask is unloaded, then stage the recomputed on and off
masks as new_value. -/
def radio_step (group : List Nat) (button : Nat) (st : KeypadLinc) : KeypadLinc :=
  let pr := reset_if_unloaded (st.onMask button) (st.offMask button)
  { st with
    onMask := fun b =>
      if b = button then
        { pr.1 with new_value := some (radio_mask group button pr.1.read) }
      else st.onMask b
    offMask := fun b =>
      if b = button then
        { pr.2 with new_value := some (radio_mask group button pr.2.read) }
      else st.offMask b }

/-- The iteration of SwitchedLightingControl_KeypadLinc.set_radio_buttons:
buttons are processed in order; the first button not in the device button
list raises ValueError, leaving the mutations of the buttons already
processed in place. -/
def set_radio_buttons_loop (group : List Nat) :
    KeypadLinc → List Nat → KeypadLinc × Option PyErr
  | st, [] => (st, none)
  | st, b :: rest =>
    if b ∈ st.buttons then set_radio_buttons_loop group (radio_step group b st) rest
    else (st, some PyErr.valueErr)

/-- SwitchedLightingControl_KeypadLinc.set_radio_buttons: IndexError when
fewer than two buttons are given, then the per-button staging loop. -/
def set_radio_buttons (st : KeypadLinc) (buttons : List Nat) :
    KeypadLinc × Option PyErr :=
  if buttons.length < 2 then (st, some PyErr.indexErr)
  else set_radio_buttons_loop buttons st buttons

/-- SwitchedLightingControl_KeypadLinc.set_toggle_mode: validates the
button and the toggle mode (ToggleMode accepts 0, 1 and 2), resets the
non-toggle masks when either is unloaded, then stages the new mask pair:
mode 0 clears the button bit in both, mode 1 sets it in both, mode 2 sets
it in the non-toggle mask and clears it in the on-off mask. -/
def set_toggle_mode (st : KeypadLinc) (button : Nat) (toggle_mode : Nat) :
    KeypadLinc × Option PyErr :=
  if button ∉ st.buttons then (st, some PyErr.valueErr)
  else if 2 < toggle_mode then (st, some PyErr.valueErr)
  else
    let pr :=
      if !st.nonToggleMask.is_loaded || !st.nonToggleOnOffMask.is_loaded then
        (st.nonToggleMask.set_value 0, st.nonToggleOnOffMask.set_value 0)
      else (st.nonToggleMask, st.nonToggleOnOffMask)
    let toggle_mask_test := pr.1.new_value.getD pr.1.read
    let on_off_mask_test := pr.2.new_value.getD pr.2.read
    let pair :=
      if toggle_mode = 0 then
        (set_bit toggle_mask_test (button - 1) false,
         set_bit on_off_mask_test (button - 1) false)
      else if toggle_mode = 1 then
        (set_bit toggle_mask_test (button - 1) true,
         set_bit on_off_mask_test (button - 1) true)
      else
        (set_bit toggle_mask_test (button - 1) true,
         set_bit on_off_mask_test (button - 1) false)
    ({ st with
        nonToggleMask := { pr.1 with new_value := some pair.1 }
        nonToggleOnOffMask := { pr.2 with new_value := some pair.2 } },
     none)

/-- A KeypadLinc 8-button state with nothing loaded, used for concrete
evaluations. -/
def keypad0 : KeypadLinc :=
  { buttons := [1, 2, 3, 4, 5, 6, 7, 8]
    groupVal := fun g => if 1 ≤ g ∧ g ≤ 8 then some 0 else none
    onMask := fun _ => { value := none, new_value := none }
    offMask := fun _ => { value := none, new_value := none }
    nonToggleMask := { value := none, new_value := none }
    nonToggleOnOffMask := { value := none, new_value := none }
    statusRequested := false
    sent_led_frames := []
    events := [] }

/-!
Step-relation model of the on-off lock discipline of
SwitchedLightingControl_KeypadLinc.async_on and async_off for groups
outside 0 and 1.  Each task follows the program order of the source:
acquire the lock, compute the LED frame with _change_led_status, await
the transport send, release the lock.  The lock itself (asyncio.Lock) is
modelled from the spec as exclusive ownership by at most one task.
-/

/-- Program counter of one LED read-modify-write task. -/
inductive LedPc where
  | idle
  | computing
  | sending
  | done
deriving Repr, DecidableEq

/-- Joint state of two LED toggle tasks on the same device: the holder of
the on-off lock, and the program counter of each task. -/
structure LedLockState where
  holder : Option Bool
  pcs : Bool → LedPc

/-- A task is in the read-modify-write span when it is between computing
the desired LED byte state and awaiting the transport response. -/
def in_rmw (s : LedLockState) (i : Bool) : Prop :=
  s.pcs i = LedPc.computing ∨ s.pcs i = LedPc.sending

/-- Interleaving semantics of the lock-protected region of async_on and
async_off: a task enters the computing phase only by acquiring the free
lock, moves from computing to sending within the lock, and releases the
lock when the awaited send completes. -/
inductive LedStep : LedLockState → LedLockState → Prop
  | acquire (s : LedLockState) (i : Bool) :
      s.holder = none → s.pcs i = LedPc.idle →
      LedStep s ⟨some i, fun j => if j = i then LedPc.computing else s.pcs j⟩
  | send (s : LedLockState) (i : Bool) :
      s.pcs i = LedPc.computing →
      LedStep s ⟨s.holder, fun j => if j = i then LedPc.sending else s.pcs j⟩
  | release (s : LedLockState) (i : Bool) :
      s.pcs i = LedPc.sending →
      LedStep s ⟨none, fun j => if j = i then LedPc.done else s.pcs j⟩

/-- Initial state: the lock is free and both tasks are idle. -/
def ledInit : LedLockState :=
  ⟨none, fun _ => LedPc.idle⟩

/-- Lock ownership invariant: any task inside the read-modify-write span
holds the lock. -/
def led_inv (s : LedLockState) : Prop :=
  ∀ i, in_rmw s i → s.holder = some i

theorem led_inv_init : led_inv ledInit := by
  intro i h
  cases h with
  | inl h => exact absurd h (by simp [ledInit])
  | inr h => exact absurd h (by simp [ledInit])

theorem led_inv_step {s s' : LedLockState} (hinv : led_inv s)
    (hstep : LedStep s s') : led_inv s' := by
  cases hstep with
  | acquire i hfree hidle =>
    intro j hj
    by_cases hji : j = i
    · simp [hji]
    · exfalso
      have hpc : s.pcs j = LedPc.computing ∨ s.pcs j = LedPc.sending := by
        cases hj with
        | inl h => left; simpa [hji] using h
        | inr h => right; simpa [hji] using h
      have := hinv j hpc
      rw [hfree] at this
      exact Option.noConfusion this
  | send i hcomp =>
    intro j hj
    by_cases hji : j = i
    · subst hji
      exact hinv j (Or.inl hcomp)
    · have hpc : s.pcs j = LedPc.computing ∨ s.pcs j = LedPc.sending := by
        cases hj with
        | inl h => left; simpa [hji] using h
        | inr h => right; simpa [hji] using h
      exact hinv j hpc
  | release i hsend =>
    intro j hj
    by_cases hji : j = i
    · subst hji
      exfalso
      cases hj with
      | inl h => simp at h
      | inr h => simp at h
    · exfalso
      have hpc : s.pcs j = LedPc.computing ∨ s.pcs j = LedPc.sending := by
        cases hj with
        | inl h => left; simpa [hji] using h
        | inr h => right; simpa [hji] using h
      have h1 := hinv j hpc
      have h2 := hinv i (Or.inr hsend)
      rw [h1] at h2
      exact hji (Option.some.inj h2)

theorem led_inv_reachable {s : LedLockState}
    (h : Relation.ReflTransGen LedStep ledInit s) : led_inv s := by
  induction h with
  | refl => exact led_inv_init
  | tail _ hstep ih => exact led_inv_step ih hstep

/-!
Model of the run-on-wake gate of ClimateControl_WirelessThermostat
(BatteryDeviceBase is not under src; the gate is modelled from the spec).
-/

/-- The deferred operations the wireless thermostat queues on the wake
gate, with their captured arguments. -/
inductive WakeOp where
  | setCoolSetPoint (temperature : Int)
  | setHeatSetPoint (temperature : Int)
  | setHumidityHighSetPoint (humidity : Nat)
  | setHumidityLowSetPoint (humidity : Nat)
  | setMode (thermostat_mode : Nat)
  | setMaster (master : Nat)
  | setNotifyChanges
  | setDayTime
  | addDefaultLinksOnWake
deriving Repr, DecidableEq

/-- The queue of deferred calls stored by the wake gate. -/
structure WakeQueue where
  queue : List WakeOp
deriving Repr, DecidableEq

/-- Modelled from the spec: BatteryDeviceBase._run_on_wake stores the
operation as a deferred call with captured arguments and hands back the
awaitable carrying the eventual result of that invocation, identified
here by its position in the queue. -/
def run_on_wake (st : WakeQueue) (op : WakeOp) : WakeQueue × Nat :=
  ({ queue := st.queue ++ [op] }, st.queue.length)

/-- ClimateControl_WirelessThermostat.async_set_cool_set_point: queues the
base class operation with its argument on the wake gate and returns the
deferred result. -/
def wt_async_set_cool_set_point (st : WakeQueue) (temperature : Int) :
    WakeQueue × Option Nat :=
  let r := run_on_wake st (WakeOp.setCoolSetPoint temperature)
  (r.1, some r.2)

/-- ClimateControl_WirelessThermostat.async_set_heat_set_point. -/
def wt_async_set_heat_set_point (st : WakeQueue) (temperature : Int) :
    WakeQueue × Option Nat :=
  let r := run_on_wake st (WakeOp.setHeatSetPoint temperature)
  (r.1, some r.2)

/-- ClimateControl_WirelessThermostat.async_set_humidity_high_set_point. -/
def wt_async_set_humidity_high_set_point (st : WakeQueue) (humidity : Nat) :
    WakeQueue × Option Nat :=
  let r := run_on_wake st (WakeOp.setHumidityHighSetPoint humidity)
  (r.1, some r.2)

/-- ClimateControl_WirelessThermostat.async_set_humidity_low_set_point. -/
def wt_async_set_humidity_low_set_point (st : WakeQueue) (humidity : Nat) :
    WakeQueue × Option Nat :=
  let r := run_on_wake st (WakeOp.setHumidityLowSetPoint humidity)
  (r.1, some r.2)

/-- ClimateControl_WirelessThermostat.async_set_mode. -/
def wt_async_set_mode (st : WakeQueue) (thermostat_mode : Nat) :
    WakeQueue × Option Nat :=
  let r := run_on_wake st (WakeOp.setMode thermostat_mode)
  (r.1, some r.2)

/-- ClimateControl_WirelessThermostat.async_set_master. -/
def wt_async_set_master (st : WakeQueue) (master : Nat) :
    WakeQueue × Option Nat :=
  let r := run_on_wake st (WakeOp.setMaster master)
  (r.1, some r.2)

/-- ClimateControl_WirelessThermostat.async_set_notify_changes. -/
def wt_async_set_notify_changes (st : WakeQueue) : WakeQueue × Option Nat :=
  let r := run_on_wake st WakeOp.setNotifyChanges
  (r.1, some r.2)

/-- ClimateControl_WirelessThermostat.async_set_day_time. -/
def wt_async_set_day_time (st : WakeQueue) : WakeQueue × Option Nat :=
  let r := run_on_wake st WakeOp.setDayTime
  (r.1, some r.2)

/-- ClimateControl_WirelessThermostat.async_add_default_links: the source
queues async_add_default_links_on_wake on the gate but does not return
the value of the _run_on_wake call, so the caller receives None. -/
def wt_async_add_default_links (st : WakeQueue) : WakeQueue × Option Nat :=
  let r := run_on_wake st WakeOp.addDefaultLinksOnWake
  (r.1, none)

/-!
Helper lemmas about the set_radio_buttons iteration.
-/

theorem radio_step_buttons (group : List Nat) (b : Nat) (st : KeypadLinc) :
    (radio_step group b st).buttons = st.buttons := rfl

theorem radio_step_frames (group : List Nat) (b : Nat) (st : KeypadLinc) :
    (radio_step group b st).sent_led_frames = st.sent_led_frames := rfl

theorem radio_step_onMask_ne (group : List Nat) (b c : Nat) (st : KeypadLinc)
    (h : c ≠ b) : (radio_step group b st).onMask c = st.onMask c := by
  simp [radio_step, h]

theorem radio_step_offMask_ne (group : List Nat) (b c : Nat) (st : KeypadLinc)
    (h : c ≠ b) : (radio_step group b st).offMask c = st.offMask c := by
  simp [radio_step, h]

theorem radio_step_onMask_self (group : List Nat) (b : Nat) (st : KeypadLinc) :
    (radio_step group b st).onMask b =
      { (reset_if_unloaded (st.onMask b) (st.offMask b)).1 with
        new_value := some (radio_mask group b
          (reset_if_unloaded (st.onMask b) (st.offMask b)).1.read) } := by
  simp [radio_step]

theorem radio_step_offMask_self (group : List Nat) (b : Nat) (st : KeypadLinc) :
    (radio_step group b st).offMask b =
      { (reset_if_unloaded (st.onMask b) (st.offMask b)).2 with
        new_value := some (radio_mask group b
          (reset_if_unloaded (st.onMask b) (st.offMask b)).2.read) } := by
  simp [radio_step]

theorem loop_buttons (group : List Nat) :
    ∀ l st, ((set_radio_buttons_loop group st l).1).buttons = st.buttons := by
  intro l
  induction l with
  | nil => intro st; rfl
  | cons a rest ih =>
    intro st
    by_cases ha : a ∈ st.buttons
    · simp only [set_radio_buttons_loop, if_pos ha]
      rw [ih (radio_step group a st), radio_step_buttons]
    · simp only [set_radio_buttons_loop, if_neg ha]

theorem loop_frames (group : List Nat) :
    ∀ l st, ((set_radio_buttons_loop group st l).1).sent_led_frames =
      st.sent_led_frames := by
  intro l
  induction l with
  | nil => intro st; rfl
  | cons a rest ih =>
    intro st
    by_cases ha : a ∈ st.buttons
    · simp only [set_radio_buttons_loop, if_pos ha]
      rw [ih (radio_step group a st), radio_step_frames]
    · simp only [set_radio_buttons_loop, if_neg ha]

theorem loop_err_none (group : List Nat) :
    ∀ l st, (∀ c ∈ l, c ∈ st.buttons) →
      (set_radio_buttons_loop group st l).2 = none := by
  intro l
  induction l with
  | nil => intro st _; rfl
  | cons a rest ih =>
    intro st hmem
    have ha : a ∈ st.buttons := hmem a (by simp)
    simp only [set_radio_buttons_loop, if_pos ha]
    refine ih (radio_step group a st) fun c hc => ?_
    rw [radio_step_buttons]
    exact hmem c (by simp [hc])

theorem loop_err_invalid (group : List Nat) :
    ∀ l st, (∃ c ∈ l, c ∉ st.buttons) →
      (set_radio_buttons_loop group st l).2 = some PyErr.valueErr := by
  intro l
  induction l with
  | nil => intro st h; exact absurd h (by simp)
  | cons a rest ih =>
    intro st h
    obtain ⟨c, hcl, hcb⟩ := h
    by_cases ha : a ∈ st.buttons
    · simp only [set_radio_buttons_loop, if_pos ha]
      have hca : c ≠ a := fun hc => hcb (hc ▸ ha)
      have hcr : c ∈ rest := by
        cases hcl with
        | head => exact absurd rfl hca
        | tail _ h => exact h
      refine ih (radio_step group a st) ⟨c, hcr, ?_⟩
      rw [radio_step_buttons]
      exact hcb
    · simp only [set_radio_buttons_loop, if_neg ha]

theorem loop_onMask_not_mem (group : List Nat) (b : Nat) :
    ∀ l st, b ∉ l →
      ((set_radio_buttons_loop group st l).1).onMask b = st.onMask b := by
  intro l
  induction l with
  | nil => intro st _; rfl
  | cons a rest ih =>
    intro st hb
    have hba : b ≠ a := fun h => hb (by simp [h])
    have hbr : b ∉ rest := fun h => hb (by simp [h])
    by_cases ha : a ∈ st.buttons
    · simp only [set_radio_buttons_loop, if_pos ha]
      rw [ih (radio_step group a st) hbr, radio_step_onMask_ne group a b st hba]
    · simp only [set_radio_buttons_loop, if_neg ha]

theorem loop_offMask_not_mem (group : List Nat) (b : Nat) :
    ∀ l st, b ∉ l →
      ((set_radio_buttons_loop group st l).1).offMask b = st.offMask b := by
  intro l
  induction l with
  | nil => intro st _; rfl
  | cons a rest ih =>
    intro st hb
    have hba : b ≠ a := fun h => hb (by simp [h])
    have hbr : b ∉ rest := fun h => hb (by simp [h])
    by_cases ha : a ∈ st.buttons
    · simp only [set_radio_buttons_loop, if_pos ha]
      rw [ih (radio_step group a st) hbr, radio_step_offMask_ne group a b st hba]
    · simp only [set_radio_buttons_loop, if_neg ha]

theorem loop_masks_mem (group : List Nat) (b : Nat) :
    ∀ l st, l.Nodup → (∀ c ∈ l, c ∈ st.buttons) → b ∈ l →
      ((set_radio_buttons_loop group st l).1).onMask b =
          (radio_step group b st).onMask b ∧
      ((set_radio_buttons_loop group st l).1).offMask b =
          (radio_step group b st).offMask b := by
  intro l
  induction l with
  | nil => intro st _ _ hb; exact absurd hb (by simp)
  | cons a rest ih =>
    intro st hnd hmem hb
    have ha : a ∈ st.buttons := hmem a (by simp)
    simp only [set_radio_buttons_loop, if_pos ha]
    by_cases hba : b = a
    · subst hba
      have hbr : b ∉ rest := (List.nodup_cons.mp hnd).1
      constructor
      · rw [loop_onMask_not_mem group b rest (radio_step group b st) hbr]
      · rw [loop_offMask_not_mem group b rest (radio_step group b st) hbr]
    · have hbr : b ∈ rest := by
        cases hb with
        | head => exact absurd rfl hba
        | tail _ h => exact h
      have hrec := ih (radio_step group a st) (List.nodup_cons.mp hnd).2
        (fun c hc => by rw [radio_step_buttons]; exact hmem c (by simp [hc])) hbr
      have hon := radio_step_onMask_ne group a b st hba
      have hoff := radio_step_offMask_ne group a b st hba
      constructor
      · rw [hrec.1, radio_step_onMask_self, radio_step_onMask_self, hon, hoff]
      · rw [hrec.2, radio_step_offMask_self, radio_step_offMask_self, hon, hoff]

theorem testBit_radio_mask (buttons : List Nat) (button prior i : Nat)
    (hi : i < 8) :
    Nat.testBit (radio_mask buttons button prior) i =
      radio_mask_bit buttons button prior i := by
  rw [radio_mask, testBit_build_mask _ 8 le_rfl i]
  simp [hi]

/-!
Claim theorems.
-/

/-- C1: async_set_cool_set_point and async_set_heat_set_point send the
clamped value max(1, min(t, 127)), never the raw input, for any transport
outcome; and on a SUCCESS acknowledgement the corresponding set-point
group value becomes the clamped value. -/
theorem set_point_clamped_before_send (st : Thermostat) (t : Int)
    (res res2 : ResponseStatus) (hres : res = ResponseStatus.success) :
    (async_set_cool_set_point st t res2).1.sent_cool =
        st.sent_cool ++ [max 1 (min t 127)] ∧
    (async_set_heat_set_point st t res2).1.sent_heat =
        st.sent_heat ++ [max 1 (min t 127)] ∧
    (async_set_cool_set_point st t res).1.cool_set_point = max 1 (min t 127) ∧
    (async_set_heat_set_point st t res).1.heat_set_point = max 1 (min t 127) := by
  subst hres
  unfold async_set_cool_set_point async_set_heat_set_point
  by_cases h : res2 = ResponseStatus.success <;> simp [h]

/-- Witness for C1: the scenario of the spec, cool set point 150 with a
SUCCESS acknowledgement sends 127 and stores 127, not 150. -/
theorem set_point_clamped_before_send_witness :
    (async_set_cool_set_point thermostat0 150 ResponseStatus.success).1.sent_cool =
        [127] ∧
    (async_set_cool_set_point thermostat0 150 ResponseStatus.success).1.cool_set_point =
        127 := by
  have h := set_point_clamped_before_send thermostat0 150 ResponseStatus.success
    ResponseStatus.success rfl
  constructor
  · rw [h.1]; norm_num [thermostat0]
  · rw [h.2.2.1]; norm_num

/-- C2 (code bug): the composite status path converts the raw temperature
with to_fahrenheit when CELSIUS is false, but the standalone temperature
handler _temp_received stores the raw device value unconverted even when
CELSIUS is false, contradicting its own docstring and the spec rule that
conversion is applied exactly once on every inbound path. -/
theorem temp_received_skips_conversion :
    thermostat0.celsius = some false ∧
    (status_received thermostat0 0 0 65 40 200 false false 95).temperature = 392 ∧
    to_fahrenheit 200 = 392 ∧
    (temp_received thermostat0 200).temperature = 200 := by
  refine ⟨rfl, ?_, by decide, rfl⟩
  show (if thermostat0.celsius.getD false then (200 : Int) else to_fahrenheit 200) = 392
  decide

/-- C3: a mutating operation that updates local state after a command
leaves the corresponding group value untouched for any transport result
other than SUCCESS. -/
theorem no_update_without_success (tst : Thermostat) (kst : KeypadLinc)
    (hum g : Nat) (res : ResponseStatus)
    (hres : res ≠ ResponseStatus.success) :
    (async_set_humidity_high_set_point tst hum res).1.humidity_high =
        tst.humidity_high ∧
    (async_set_humidity_low_set_point tst hum res).1.humidity_low =
        tst.humidity_low ∧
    (async_on kst g res).1.groupVal = kst.groupVal ∧
    (async_off kst g res).1.groupVal = kst.groupVal := by
  refine ⟨?_, ?_, ?_, ?_⟩ <;>
    simp only [async_set_humidity_high_set_point, async_set_humidity_low_set_point,
      async_on, async_off, super_async_on, super_async_off, if_neg hres] <;>
    try rfl
  all_goals
    by_cases hg : g = 0 ∨ g = 1 <;>
      by_cases hnak : res = ResponseStatus.direct_nak_pre_nak <;>
        simp [hg, hnak, hres]

/-- Witness for C3: a FAILURE result leaves every modelled group value of
the concrete states unchanged. -/
theorem no_update_without_success_witness :
    (async_set_humidity_high_set_point thermostat0 50 ResponseStatus.failure).1.humidity_high =
        thermostat0.humidity_high ∧
    (async_on keypad0 3 ResponseStatus.failure).1.groupVal = keypad0.groupVal := by
  have h := no_update_without_success thermostat0 keypad0 50 3
    ResponseStatus.failure (by decide)
  exact ⟨h.1, h.2.2.1⟩

/-- C5: the single SET_LEDS frame sent by async_on or async_off for a
group outside 0 and 1 carries, for every LED position 1..8, the boolean
of that position's current group value (false for a position the device
does not define), with only the requested position overridden; the frame
is computed from the state as it was when the command was issued. -/
theorem led_frame_from_current_state (st : KeypadLinc) (g : Nat)
    (res : ResponseStatus) (hg0 : g ≠ 0) (hg1 : g ≠ 1) :
    (async_on st g res).1.sent_led_frames =
        st.sent_led_frames ++ [change_led_status st g true] ∧
    (async_off st g res).1.sent_led_frames =
        st.sent_led_frames ++ [change_led_status st g false] ∧
    change_led_status st g true g = true ∧
    change_led_status st g false g = false ∧
    (∀ pos, 1 ≤ pos → pos ≤ 8 → pos ≠ g →
      change_led_status st g true pos =
        (match st.groupVal pos with
          | some v => decide (v ≠ 0)
          | none => false) ∧
      change_led_status st g false pos =
        (match st.groupVal pos with
          | some v => decide (v ≠ 0)
          | none => false)) := by
  have hg : ¬(g = 0 ∨ g = 1) := by
    rintro (h | h)
    · exact hg0 h
    · exact hg1 h
  refine ⟨?_, ?_, by simp [change_led_status], by simp [change_led_status], ?_⟩
  · simp only [async_on, if_neg hg]
    by_cases hs : res = ResponseStatus.success <;>
      by_cases hnak : res = ResponseStatus.direct_nak_pre_nak <;>
        simp [hs, hnak, update_leds] <;> split <;> simp
  · simp only [async_off, if_neg hg]
    by_cases hs : res = ResponseStatus.success <;>
      by_cases hnak : res = ResponseStatus.direct_nak_pre_nak <;>
        simp [hs, hnak, update_leds] <;> split <;> simp
  · intro pos _ _ hpos
    constructor <;> simp [change_led_status, hpos]

/-- Witness for C5: on the concrete 8-button state, turning group 3 on
sends a frame with position 3 forced on and position 5 carrying the
current (off) value of group 5. -/
theorem led_frame_from_current_state_witness :
    (async_on keypad0 3 ResponseStatus.failure).1.sent_led_frames =
        [change_led_status keypad0 3 true] ∧
    change_led_status keypad0 3 true 3 = true ∧
    change_led_status keypad0 3 true 5 = false := by
  have h := led_frame_from_current_state keypad0 3 ResponseStatus.failure
    (by decide) (by decide)
  refine ⟨?_, h.2.2.1, ?_⟩
  · rw [h.1]; rfl
  · rw [(h.2.2.2.2 5 (by decide) (by decide) (by decide)).1]
    decide

/-- C6: when the transport reports DIRECT_NAK_PRE_NAK, async_on and
async_off issue a status refresh, return the original result code
unchanged, and apply no group value update from the failed command. -/
theorem pre_nak_refreshes_status (st : KeypadLinc) (g : Nat) :
    (async_on st g ResponseStatus.direct_nak_pre_nak).2 =
        ResponseStatus.direct_nak_pre_nak ∧
    (async_on st g ResponseStatus.direct_nak_pre_nak).1.statusRequested = true ∧
    (async_on st g ResponseStatus.direct_nak_pre_nak).1.groupVal = st.groupVal ∧
    (async_off st g ResponseStatus.direct_nak_pre_nak).2 =
        ResponseStatus.direct_nak_pre_nak ∧
    (async_off st g ResponseStatus.direct_nak_pre_nak).1.statusRequested = true ∧
    (async_off st g ResponseStatus.direct_nak_pre_nak).1.groupVal = st.groupVal := by
  refine ⟨rfl, ?_, ?_, rfl, ?_, ?_⟩ <;>
    simp only [async_on, async_off, super_async_on, super_async_off] <;>
      by_cases hg : g = 0 ∨ g = 1 <;> simp [hg]

/-- C9: in every state reachable from the initial state under the lock
discipline of the LED read-modify-write operations, no two tasks are both
inside the span from computing the desired LED byte state to awaiting the
transport response. -/
theorem led_rmw_mutual_exclusion (s : LedLockState)
    (hreach : Relation.ReflTransGen LedStep ledInit s)
    (i j : Bool) (hij : i ≠ j) : ¬(in_rmw s i ∧ in_rmw s j) := by
  rintro ⟨hi, hj⟩
  have hinv := led_inv_reachable hreach
  have h1 := hinv i hi
  have h2 := hinv j hj
  rw [h1] at h2
  exact hij (Option.some.inj h2)

/-- Witness for C9: mutual exclusion of the two tasks at the initial
state, which is reachable by the empty run. -/
theorem led_rmw_mutual_exclusion_witness :
    ¬(in_rmw ledInit false ∧ in_rmw ledInit true) :=
  led_rmw_mutual_exclusion ledInit Relation.ReflTransGen.refl false true
    (by decide)

/-- C10: after a successful async_on for a defined group g, the stored
group value is forced to 0 when the loaded non-toggle mask has bit g set,
and is the given value 0xFF when the mask is unloaded; the ON event is
triggered with 0xFF in both cases. -/
theorem non_toggle_forces_group_off (st : KeypadLinc) (g m : Nat)
    (hdef : (st.groupVal g).isSome = true) :
    (st.nonToggleMask.value = some m → bit_is_set m g = true →
      (async_on st g ResponseStatus.success).1.groupVal g = some 0) ∧
    (st.nonToggleMask.value = none →
      (async_on st g ResponseStatus.success).1.groupVal g = some 0xFF) ∧
    (async_on st g ResponseStatus.success).1.events =
      st.events ++ [(g, EvName.onEvent, 0xFF)] := by
  obtain ⟨v, hv⟩ := Option.isSome_iff_exists.mp hdef
  by_cases hg : g = 0 ∨ g = 1 <;>
    refine ⟨fun hm hbit => ?_, fun hm => ?_, ?_⟩ <;>
      simp [async_on, super_async_on, update_leds, hg, hv, *]

/-- A keypad state with the non-toggle mask loaded with bit 3 set. -/
def keypadNT : KeypadLinc :=
  { keypad0 with nonToggleMask := { value := some 8, new_value := none } }

/-- Witness for C10: on the concrete state with non-toggle bit 3 set, a
successful async_on of group 3 stores 0 while triggering the ON event
with 0xFF; on the state with the mask unloaded it stores 0xFF. -/
theorem non_toggle_forces_group_off_witness :
    (async_on keypadNT 3 ResponseStatus.success).1.groupVal 3 = some 0 ∧
    (async_on keypadNT 3 ResponseStatus.success).1.events =
      [(3, EvName.onEvent, 0xFF)] ∧
    (async_on keypad0 3 ResponseStatus.success).1.groupVal 3 = some 0xFF := by
  have h1 := non_toggle_forces_group_off keypadNT 3 8 (by decide)
  have h2 := non_toggle_forces_group_off keypad0 3 8 (by decide)
  refine ⟨h1.1 rfl (by decide), ?_, h2.2.1 rfl⟩
  rw [h1.2.2]
  rfl

/-- C8 (code bug): each wireless thermostat mutating operation routes its
base class operation through the run-on-wake gate, and each hands the
deferred result back to the caller, except async_add_default_links: the
source does not return the value of its _run_on_wake call, so its caller
receives None instead of the eventual result of the deferred invocation. -/
theorem add_default_links_returns_none :
    (wt_async_add_default_links ⟨[]⟩).1.queue = [WakeOp.addDefaultLinksOnWake] ∧
    (wt_async_add_default_links ⟨[]⟩).2 = none ∧
    (wt_async_set_cool_set_point ⟨[]⟩ 70).2 = some 0 ∧
    (wt_async_set_heat_set_point ⟨[]⟩ 70).2 = some 0 ∧
    (wt_async_set_humidity_high_set_point ⟨[]⟩ 50).2 = some 0 ∧
    (wt_async_set_humidity_low_set_point ⟨[]⟩ 20).2 = some 0 ∧
    (wt_async_set_mode ⟨[]⟩ 1).2 = some 0 ∧
    (wt_async_set_master ⟨[]⟩ 1).2 = some 0 ∧
    (wt_async_set_notify_changes ⟨[]⟩).2 = some 0 ∧
    (wt_async_set_day_time ⟨[]⟩).2 = some 0 ∧
    (wt_async_set_cool_set_point ⟨[]⟩ 70).1.queue = [WakeOp.setCoolSetPoint 70] := by
  refine ⟨rfl, rfl, rfl, rfl, rfl, rfl, rfl, rfl, rfl, rfl, rfl⟩

/-- C4 (amended): for set_radio_buttons with at least two distinct buttons
all present in the device button list, each button b gets staged on and
off masks with bit (c - 1) set for every other button c of the group and
bit (b - 1) clear; a bit of a button outside the group keeps the prior
mask value when BOTH masks of the pair were loaded, and reads as zero
otherwise, because the source resets both masks of the pair to zero when
either one is unloaded. -/
theorem radio_button_mask_bits (st : KeypadLinc) (buttons : List Nat) (b : Nat)
    (hlen : 2 ≤ buttons.length) (hnd : buttons.Nodup)
    (hsub : ∀ c ∈ buttons, c ∈ st.buttons)
    (hrange : ∀ c ∈ buttons, 1 ≤ c ∧ c ≤ 8)
    (hb : b ∈ buttons) :
    (set_radio_buttons st buttons).2 = none ∧
    (((set_radio_buttons st buttons).1.onMask b).new_value).isSome = true ∧
    (((set_radio_buttons st buttons).1.offMask b).new_value).isSome = true ∧
    (∀ c ∈ buttons, c ≠ b →
      Nat.testBit ((((set_radio_buttons st buttons).1.onMask b).new_value).getD 0)
        (c - 1) = true ∧
      Nat.testBit ((((set_radio_buttons st buttons).1.offMask b).new_value).getD 0)
        (c - 1) = true) ∧
    Nat.testBit ((((set_radio_buttons st buttons).1.onMask b).new_value).getD 0)
      (b - 1) = false ∧
    Nat.testBit ((((set_radio_buttons st buttons).1.offMask b).new_value).getD 0)
      (b - 1) = false ∧
    (∀ bit, bit < 8 → (bit + 1) ∉ buttons →
      Nat.testBit ((((set_radio_buttons st buttons).1.onMask b).new_value).getD 0)
          bit =
        ((st.onMask b).is_loaded && (st.offMask b).is_loaded &&
          Nat.testBit (st.onMask b).read bit) ∧
      Nat.testBit ((((set_radio_buttons st buttons).1.offMask b).new_value).getD 0)
          bit =
        ((st.onMask b).is_loaded && (st.offMask b).is_loaded &&
          Nat.testBit (st.offMask b).read bit)) := by
  have hnot : ¬(buttons.length < 2) := by omega
  have hres : set_radio_buttons st buttons =
      set_radio_buttons_loop buttons st buttons := by
    simp [set_radio_buttons, hnot]
  have hmask := loop_masks_mem buttons b buttons st hnd hsub hb
  have herr := loop_err_none buttons buttons st hsub
  have hon : ((set_radio_buttons st buttons).1.onMask b).new_value =
      some (radio_mask buttons b
        (reset_if_unloaded (st.onMask b) (st.offMask b)).1.read) := by
    rw [hres, hmask.1, radio_step_onMask_self]
  have hoff : ((set_radio_buttons st buttons).1.offMask b).new_value =
      some (radio_mask buttons b
        (reset_if_unloaded (st.onMask b) (st.offMask b)).2.read) := by
    rw [hres, hmask.2, radio_step_offMask_self]
  have hbr := hrange b hb
  refine ⟨by rw [hres]; exact herr, by rw [hon]; rfl, by rw [hoff]; rfl,
    ?_, ?_, ?_, ?_⟩
  · intro c hc hcb
    have hcr := hrange c hc
    have hc1 : c - 1 < 8 := by omega
    have hcmem : (c - 1) + 1 ∈ buttons := by
      have : (c - 1) + 1 = c := by omega
      rw [this]; exact hc
    have hne : c - 1 ≠ b - 1 := by omega
    constructor
    · rw [hon]
      simp only [Option.getD_some]
      rw [testBit_radio_mask buttons b _ (c - 1) hc1]
      simp [radio_mask_bit, hcmem, hne]
    · rw [hoff]
      simp only [Option.getD_some]
      rw [testBit_radio_mask buttons b _ (c - 1) hc1]
      simp [radio_mask_bit, hcmem, hne]
  · have hb1 : b - 1 < 8 := by omega
    have hbmem : (b - 1) + 1 ∈ buttons := by
      have : (b - 1) + 1 = b := by omega
      rw [this]; exact hb
    rw [hon]
    simp only [Option.getD_some]
    rw [testBit_radio_mask buttons b _ (b - 1) hb1]
    simp [radio_mask_bit, hbmem]
  · have hb1 : b - 1 < 8 := by omega
    have hbmem : (b - 1) + 1 ∈ buttons := by
      have : (b - 1) + 1 = b := by omega
      rw [this]; exact hb
    rw [hoff]
    simp only [Option.getD_some]
    rw [testBit_radio_mask buttons b _ (b - 1) hb1]
    simp [radio_mask_bit, hbmem]
  · intro bit hbit hout
    constructor
    · rw [hon]
      simp only [Option.getD_some]
      rw [testBit_radio_mask buttons b _ bit hbit]
      simp only [radio_mask_bit, if_neg hout]
      by_cases hl : (st.onMask b).is_loaded && (st.offMask b).is_loaded
      · have h1 : (st.onMask b).is_loaded = true := by
          cases Bool.and_eq_true_iff.mp hl; assumption
        have h2 : (st.offMask b).is_loaded = true := by
          exact (Bool.and_eq_true_iff.mp hl).2
        simp [reset_if_unloaded, h1, h2, bit_is_set, hl]
      · have hl' : ((st.onMask b).is_loaded && (st.offMask b).is_loaded) = false := by
          revert hl; cases ((st.onMask b).is_loaded && (st.offMask b).is_loaded) <;>
            simp
        have : (!(st.onMask b).is_loaded || !(st.offMask b).is_loaded) = true := by
          cases Bool.and_eq_false_iff.mp hl' with
          | inl h => simp [h]
          | inr h => simp [h]
        simp [reset_if_unloaded, this, ExtProp.set_value, ExtProp.read, bit_is_set,
          hl']
    · rw [hoff]
      simp only [Option.getD_some]
      rw [testBit_radio_mask buttons b _ bit hbit]
      simp only [radio_mask_bit, if_neg hout]
      by_cases hl : (st.onMask b).is_loaded && (st.offMask b).is_loaded
      · have h1 : (st.onMask b).is_loaded = true := by
          cases Bool.and_eq_true_iff.mp hl; assumption
        have h2 : (st.offMask b).is_loaded = true := by
          exact (Bool.and_eq_true_iff.mp hl).2
        simp [reset_if_unloaded, h1, h2, bit_is_set, hl]
      · have hl' : ((st.onMask b).is_loaded && (st.offMask b).is_loaded) = false := by
          revert hl; cases ((st.onMask b).is_loaded && (st.offMask b).is_loaded) <;>
            simp
        have : (!(st.onMask b).is_loaded || !(st.offMask b).is_loaded) = true := by
          cases Bool.and_eq_false_iff.mp hl' with
          | inl h => simp [h]
          | inr h => simp [h]
        simp [reset_if_unloaded, this, ExtProp.set_value, ExtProp.read, bit_is_set,
          hl']

/-- A keypad state whose on-mask properties are loaded with value 128
(bit 7, the bit of button 8) while the off-mask properties are unloaded. -/
def keypadC4 : KeypadLinc :=
  { keypad0 with onMask := fun _ => { value := some 128, new_value := none } }

/-- Counterexample to C4 as stated: button 8 is outside the radio group
[3, 4] and the on mask of button 3 is loaded with bit 7 previously known
as set, yet the staged on mask of button 3 has bit 7 clear, because the
unloaded OFF mask of the pair makes the source reset the loaded ON mask
to zero as well. -/
theorem radio_button_mask_bits_counterexample :
    (keypadC4.onMask 3).is_loaded = true ∧
    bit_is_set (keypadC4.onMask 3).read 7 = true ∧
    (8 : Nat) ∉ [3, 4] ∧
    ((set_radio_buttons keypadC4 [3, 4]).1.onMask 3).new_value = some 8 ∧
    Nat.testBit 8 7 = false := by
  refine ⟨rfl, by decide, by decide, by decide, by decide⟩

/-- Witness for C4 (amended): on the concrete unloaded state, staging
radio group [3, 4] gives button 3 an on mask with the bit of button 4 set
and its own bit clear, with no error. -/
theorem radio_button_mask_bits_witness :
    (set_radio_buttons keypad0 [3, 4]).2 = none ∧
    Nat.testBit ((((set_radio_buttons keypad0 [3, 4]).1.onMask 3).new_value).getD 0)
      3 = true ∧
    Nat.testBit ((((set_radio_buttons keypad0 [3, 4]).1.onMask 3).new_value).getD 0)
      2 = false := by
  have h := radio_button_mask_bits keypad0 [3, 4] 3 (by decide) (by decide)
    (by decide) (by decide) (by decide)
  exact ⟨h.1, (h.2.2.2.1 4 (by decide) (by decide)).1, h.2.2.2.2.1⟩

/-- C7 (amended): set_radio_buttons raises IndexError synchronously for
fewer than two buttons, before any staging; a button outside the device
button list raises ValueError, though masks of valid buttons earlier in
the iteration have already been staged by then; set_toggle_mode raises
ValueError for an invalid button or a toggle mode outside 0..2 before any
staging; none of these paths sends anything to the device. -/
theorem validation_rejects_bad_arguments (st : KeypadLinc)
    (buttons : List Nat) (b mode : Nat) :
    (buttons.length < 2 → set_radio_buttons st buttons = (st, some PyErr.indexErr)) ∧
    (2 ≤ buttons.length → (∃ c ∈ buttons, c ∉ st.buttons) →
      (set_radio_buttons st buttons).2 = some PyErr.valueErr) ∧
    (b ∉ st.buttons → set_toggle_mode st b mode = (st, some PyErr.valueErr)) ∧
    (b ∈ st.buttons → 2 < mode →
      set_toggle_mode st b mode = (st, some PyErr.valueErr)) ∧
    (set_radio_buttons st buttons).1.sent_led_frames = st.sent_led_frames ∧
    (set_toggle_mode st b mode).1.sent_led_frames = st.sent_led_frames := by
  refine ⟨?_, ?_, ?_, ?_, ?_, ?_⟩
  · intro hlen
    simp [set_radio_buttons, hlen]
  · intro hlen hex
    have hnot : ¬(buttons.length < 2) := by omega
    simp only [set_radio_buttons, if_neg hnot]
    exact loop_err_invalid buttons buttons st hex
  · intro hbad
    simp [set_toggle_mode, hbad]
  · intro hgood hmode
    have h1 : ¬(b ∉ st.buttons) := by simp [hgood]
    simp [set_toggle_mode, h1, hmode, Nat.not_lt.mpr]
  · by_cases hlen : buttons.length < 2
    · simp [set_radio_buttons, hlen]
    · simp only [set_radio_buttons, if_neg hlen]
      exact loop_frames buttons buttons st
  · by_cases hbad : b ∉ st.buttons
    · simp [set_toggle_mode, hbad]
    · by_cases hmode : 2 < mode
      · simp [set_toggle_mode, hbad, hmode]
      · simp [set_toggle_mode, hbad, hmode]

/-- Counterexample to C7 as stated: calling set_radio_buttons with
buttons [1, 9] on the 8-button device raises ValueError for button 9,
but by then the masks of the valid button 1 have already been staged
(its on mask new_value went from None to 0). -/
theorem validation_rejects_bad_arguments_counterexample :
    (set_radio_buttons keypad0 [1, 9]).2 = some PyErr.valueErr ∧
    (keypad0.onMask 1).new_value = none ∧
    ((set_radio_buttons keypad0 [1, 9]).1.onMask 1).new_value = some 0 := by
  refine ⟨by decide, rfl, by decide⟩

/-- Witness for C7 (amended): concrete rejected calls return the errors
with the state unchanged. -/
theorem validation_rejects_bad_arguments_witness :
    set_radio_buttons keypad0 [3] = (keypad0, some PyErr.indexErr) ∧
    set_toggle_mode keypad0 9 0 = (keypad0, some PyErr.valueErr) ∧
    set_toggle_mode keypad0 3 5 = (keypad0, some PyErr.valueErr) := by
  refine ⟨?_, ?_, ?_⟩
  · exact (validation_rejects_bad_arguments keypad0 [3] 9 0).1 (by decide)
  · exact (validation_rejects_bad_arguments keypad0 [3] 9 0).2.2.1 (by decide)
  · exact (validation_rejects_bad_arguments keypad0 [3] 3 5).2.2.2.1 (by decide)
      (by decide)
